import Mathlib

/-!
Verification of the evaluation-engine core of the SXG eval platform:
the queue consumer's result collapsing and poison handling
(services/azure_storage.py), the retry/backoff wrapper and the
seven-step orchestration pipeline (core/evaluation_engine.py), and the
metric-name resolver (config/metric_name_resolver.py), shallowly
embedded in Lean.
-/

namespace EvalPlatform

/-! ## A small model of Python runtime values

The queue consumer's handler may return any Python value; the engine's
detail dictionaries mix strings, numbers, booleans and lists.  `PyVal`
models the values that actually flow through the studied code, with
Python's truthiness. -/

inductive PyVal where
  | vNone
  | vBool (b : Bool)
  | vInt (n : Int)
  | vRat (q : ℚ)
  | vStr (s : String)
  | vList (l : List PyVal)

/-- Python `bool(x)`: `None` is falsy, booleans are themselves, numbers
are truthy unless zero, strings and lists are truthy unless empty. -/
def PyVal.truthy : PyVal → Bool
  | .vNone => false
  | .vBool b => b
  | .vInt n => decide (n ≠ 0)
  | .vRat q => decide (q ≠ 0)
  | .vStr s => decide (s ≠ "")
  | .vList l => !l.isEmpty

/-- Python `isinstance(x, bool)`. -/
def PyVal.isBool : PyVal → Bool
  | .vBool _ => true
  | _ => false

/-! ## Queue consumer: result collapsing and the commit/retry/poison decision

From `AzureQueueService.listen_for_messages` (services/azure_storage.py,
lines 200-254).  After the handler returns, the raw result is collapsed
to a boolean; on `true` the consumer writes a success-audit record and
deletes the message; on `false` it either leaves the message for
redelivery (dequeue count below the retry ceiling) or runs
`_handle_final_failure` (best-effort status update, one failure-audit
record) and deletes the message. -/

/-- The collapse of the handler's raw return value, mirroring
`if processing_successful_raw is None: ... elif isinstance(..., bool):
... else: bool(...)`. -/
def collapse_processing_result (raw : PyVal) : Bool :=
  match raw with
  | .vNone => false
  | .vBool b => b
  | v => v.truthy

/-- The externally visible effects the consumer can perform on one
processed message, in order. -/
inductive ConsumerAction where
  | successAudit
  | deleteMessage
  | updateStatusFailed
  | failureAudit
  | keepForRetry
deriving DecidableEq, Repr

/-- The consumer's decision for one message whose handler has returned
`raw`, as the ordered list of effects it performs: mirrors the
success branch (success audit then delete), the poison branch
(`dequeue_count >= max_retries`: `_handle_final_failure` = best-effort
failed-status update then one failure-audit write, then delete) and the
retry branch (message left in the queue). -/
def handle_processed_message (maxRetries dequeueCount : Nat) (raw : PyVal) :
    List ConsumerAction :=
  if collapse_processing_result raw then
    [ConsumerAction.successAudit, ConsumerAction.deleteMessage]
  else if maxRetries ≤ dequeueCount then
    [ConsumerAction.updateStatusFailed, ConsumerAction.failureAudit,
     ConsumerAction.deleteMessage]
  else
    [ConsumerAction.keepForRetry]

/-! ## Retry wrapper

From `EvaluationEngine._fetch_with_retry` (core/evaluation_engine.py,
lines 34-182).  The loop runs `max_retries + 1` attempts; after a failed
attempt `k` (0-based) with retries remaining it sleeps
`base_delay * 2 ^ k` seconds; after the last attempt it re-raises the
last exception.  The embedding is parametrised by the outcome of each
attempt and returns the list of sleeps performed, the final outcome, and
the number of attempts made. -/

def fetch_with_retry_aux {α : Type} (f : Nat → Except String α) (baseDelay : Nat) :
    Nat → Nat → List Nat × Except String α × Nat
  | attempt, 0 =>
    match f attempt with
    | Except.ok a => ([], Except.ok a, 1)
    | Except.error e => ([], Except.error e, 1)
  | attempt, remaining + 1 =>
    match f attempt with
    | Except.ok a => ([], Except.ok a, 1)
    | Except.error _ =>
      let d := baseDelay * 2 ^ attempt
      let rest := fetch_with_retry_aux f baseDelay (attempt + 1) remaining
      (d :: rest.1, rest.2.1, rest.2.2 + 1)

def fetch_with_retry {α : Type} (f : Nat → Except String α)
    (maxRetries baseDelay : Nat) : List Nat × Except String α × Nat :=
  fetch_with_retry_aux f baseDelay 0 maxRetries

/-! ## Metric name resolver

From `MetricNameResolver` (config/metric_name_resolver.py).  The
resolver is parametrised by its loaded configuration (primary mappings,
alternative mappings, fuzzy rules) and, since `difflib.SequenceMatcher`
is an external library, by the similarity function it consults. -/

structure ResolverConfig where
  mappings : List (String × String)
  alternative_mappings : List (String × String)
  fuzzy_enabled : Bool
  similarity_threshold : ℚ
  transformations : List String

/-- Replacement of every non-overlapping occurrence of `pat` (scanning
left to right, as Python `str.replace`), on character lists with fuel;
every step consumes at least one input character, so the input length is
enough fuel. -/
def list_replace_aux (pat rep : List Char) : Nat → List Char → List Char
  | _, [] => []
  | 0, l => l
  | fuel + 1, c :: rest =>
    if pat.isPrefixOf (c :: rest) ∧ ¬pat.isEmpty then
      rep ++ list_replace_aux pat rep fuel ((c :: rest).drop pat.length)
    else
      c :: list_replace_aux pat rep fuel rest

/-- Python `s.replace(pat, rep)`. -/
def py_replace (s pat rep : String) : String :=
  String.mk (list_replace_aux pat.toList rep.toList s.toList.length s.toList)

/-- Python `s.lower()` (ASCII case folding as used by the metric
names). -/
def py_lower (s : String) : String :=
  String.mk (s.toList.map Char.toLower)

/-- One pass of `result.replace("__", "_")` iterated to a fixed point
with fuel, mirroring `while "__" in result: ...`; each replacement
strictly shortens the string, so `s.length` fuel suffices. -/
def collapse_underscores_aux : Nat → String → String
  | 0, s => s
  | fuel + 1, s =>
    let t := py_replace s "__" "_"
    if t == s then s else collapse_underscores_aux fuel t

def collapse_underscores (s : String) : String :=
  collapse_underscores_aux s.toList.length s

/-- Python `str.strip("_")`: drop leading and trailing underscores. -/
def strip_underscores (s : String) : String :=
  String.mk (((s.toList.dropWhile (· == '_')).reverse.dropWhile (· == '_')).reverse)

/-- `MetricNameResolver._apply_basic_normalization`: applies the
configured transformations in source order (lowercase, remove_spaces,
remove_special_chars, snake_case). -/
def apply_basic_normalization (cfg : ResolverConfig) (name : String) : String :=
  let r := name
  let r := if cfg.transformations.contains "lowercase" then py_lower r else r
  let r := if cfg.transformations.contains "remove_spaces" then py_replace r " " "" else r
  let r := if cfg.transformations.contains "remove_special_chars" then
      py_replace (py_replace (py_replace r "(" "") ")" "") "-" "_"
    else r
  let r := if cfg.transformations.contains "snake_case" then
      strip_underscores (collapse_underscores (py_replace (py_replace r " " "_") "-" "_"))
    else r
  r

/-- `MetricNameResolver._find_fuzzy_match`: best similarity candidate
among `availableMetrics`, keeping a candidate only when its similarity
strictly improves on the best so far and is at least the threshold. -/
def find_fuzzy_match (sim : String → String → ℚ) (cfg : ResolverConfig)
    (apiName : String) (availableMetrics : List String) : Option String :=
  let normalizedInput := apply_basic_normalization cfg apiName
  let best := availableMetrics.foldl
    (fun (acc : Option String × ℚ) metricName =>
      let similarity := sim normalizedInput metricName
      if acc.2 < similarity ∧ cfg.similarity_threshold ≤ similarity then
        (some metricName, similarity)
      else acc)
    (none, 0)
  best.1

/-- `MetricNameResolver.resolve_metric_name`: exact mapping, then
alternative mapping, then (when enabled and a non-empty candidate set is
supplied) fuzzy matching, then basic normalization validated against the
candidate set, falling back to the original name when the normalized
guess is not an available metric. -/
def resolve_metric_name (sim : String → String → ℚ) (cfg : ResolverConfig)
    (apiName : String) (availableMetrics : Option (List String)) : String :=
  match cfg.mappings.lookup apiName with
  | some resolved => resolved
  | none =>
  match cfg.alternative_mappings.lookup apiName with
  | some resolved => resolved
  | none =>
    let am := availableMetrics.getD []
    let fuzzyResult :=
      if cfg.fuzzy_enabled ∧ ¬am.isEmpty then
        find_fuzzy_match sim cfg apiName am
      else none
    let fallback :=
      let normalized := apply_basic_normalization cfg apiName
      if ¬am.isEmpty ∧ ¬am.contains normalized then apiName else normalized
    match fuzzyResult with
    | some m => if m.isEmpty then fallback else m
    | none => fallback

/-! ## Evaluation data model

From models/eval_models.py and metrics/evaluation_result.py. -/

structure DatasetItem where
  prompt : String
  ground_truth : String
  actual_response : String
  expected_response : Option String
  context : List String
  metadata : List (String × PyVal)

structure MetricConfig where
  metric_name : String
  category_name : Option String
  threshold : ℚ

structure MetricScore where
  metric_name : String
  score : Option ℚ
  reason : String
  passed : Bool
  details : List (String × PyVal)

structure DatasetItemResult where
  prompt : String
  ground_truth : String
  actual_response : String
  context : List String
  metric_scores : List MetricScore

/-- `EvaluationResult` (metrics/evaluation_result.py): what an Azure AI
evaluator returns to the adapter. -/
structure EvaluationResult where
  score : ℚ
  reasoning : String
  details : Option (List (String × PyVal))

/-! ## Metric adapter

From `MetricAdapter.evaluate` (metrics/azure_ai_interface.py, lines
57-100).  The underlying Azure evaluator call is modelled as a function
that either returns an `EvaluationResult` or raises. -/

structure MetricAdapter where
  name : String
  run : DatasetItem → Except String EvaluationResult

/-- Python `{**base, ...upd}`: entries of `upd` override entries of
`base` with the same key. -/
def dict_update (base upd : List (String × PyVal)) : List (String × PyVal) :=
  base.filter (fun p => !(upd.map Prod.fst).contains p.1) ++ upd

/-- Python `pat in s` on character lists: `pat` occurs as a contiguous
substring. -/
def contains_sublist (pat : List Char) : List Char → Bool
  | [] => pat.isEmpty
  | c :: rest => pat.isPrefixOf (c :: rest) || contains_sublist pat rest

/-- `any(safety_name in self.name.lower() for safety_name in
["violence", "sexual", "self_harm", "hate_unfairness"])`. -/
def is_safety_name (name : String) : Bool :=
  ["violence", "sexual", "self_harm", "hate_unfairness"].any
    (fun s => contains_sublist s.toList (py_lower name).toList)

/-- `MetricAdapter.evaluate`: converts the evaluator outcome to a
`MetricScore`; an evaluator-supplied pass verdict in `details["passed"]`
is trusted, otherwise the fallback is `score >= 0.5` (both the safety
and the non-safety branch of the source use the same comparison). -/
def MetricAdapter.evaluate (a : MetricAdapter) (item : DatasetItem) : MetricScore :=
  match a.run item with
  | Except.error e =>
    { metric_name := a.name, score := some 0,
      reason := "Evaluation failed: " ++ e, passed := false,
      details := [("error", PyVal.vStr e)] }
  | Except.ok result =>
    let d := result.details.getD []
    let passed :=
      match d.lookup "passed" with
      | some v => v.truthy
      | none =>
        if is_safety_name a.name then decide ((1 : ℚ) / 2 ≤ result.score)
        else decide ((1 : ℚ) / 2 ≤ result.score)
    { metric_name := a.name, score := some result.score,
      reason := result.reasoning, passed := passed, details := d }

/-! ## Per-metric evaluation inside the engine

From `EvaluationEngine._normalize_metric_name` and
`EvaluationEngine._evaluate_single_metric`
(core/evaluation_engine.py, lines 1106-1210). -/

def normalize_metric_name (metricName : String) (availableKeys : List String) :
    String :=
  if availableKeys.contains metricName then metricName
  else
    let fallbackName := py_replace (py_replace (py_lower metricName) " " "_") "-" "_"
    if availableKeys.contains fallbackName then fallbackName
    else metricName

def evaluate_single_metric (available : List (String × MetricAdapter))
    (item : DatasetItem) (config : MetricConfig) : MetricScore :=
  let originalName := config.metric_name
  let threshold := config.threshold
  let metricName := normalize_metric_name originalName (available.map Prod.fst)
  match available.lookup metricName with
  | none =>
    { metric_name := originalName, score := some 0,
      reason := "Metric " ++ originalName ++ " not available in registry",
      passed := false,
      details := [("original_name", PyVal.vStr originalName),
        ("normalized_name", PyVal.vStr metricName),
        ("available_metrics", PyVal.vList (available.map (fun p => PyVal.vStr p.1))),
        ("failure_category", PyVal.vStr "metric_not_found"),
        ("evaluation_attempted", PyVal.vBool false)] }
  | some metric =>
    let score := metric.evaluate item
    match score.score with
    | none =>
      -- comparing a missing score against the threshold raises a
      -- TypeError in the source, landing in its except branch
      { metric_name := originalName, score := some 0,
        reason := "Evaluation error (TypeError)", passed := false,
        details := [("original_name", PyVal.vStr originalName),
          ("normalized_name", PyVal.vStr metricName),
          ("error_type", PyVal.vStr "TypeError"),
          ("threshold", PyVal.vRat threshold),
          ("failure_category", PyVal.vStr "metric_evaluation_error"),
          ("evaluation_attempted", PyVal.vBool true)] }
    | some s =>
      let passed := decide (threshold ≤ s)
      { metric_name := originalName, score := some s,
        reason := score.reason, passed := passed,
        details := dict_update score.details
          [("threshold", PyVal.vRat threshold), ("passed", PyVal.vBool passed)] }

/-! ## Fan-out

From `EvaluationEngine._evaluate_item_metrics` and
`EvaluationEngine._run_evaluations` (core/evaluation_engine.py, lines
944-1104).  Per-task scheduling outcomes (per-metric timeout, per-metric
task exception, per-item task exception) are modelled as parameters
indexed by item and metric position. -/

/-- How the wrapped per-metric task finished: normal completion inside
the 30-second budget, `asyncio.TimeoutError`, or an exception captured
by `asyncio.gather(..., return_exceptions=True)`. -/
inductive TaskOutcome where
  | completed
  | timedOut
  | raised (e : String)

def timeout_score (config : MetricConfig) : MetricScore :=
  { metric_name := config.metric_name, score := some 0,
    reason := "Evaluation timed out after 30 seconds", passed := false,
    details := [("error_type", PyVal.vStr "TimeoutError"),
      ("error_message", PyVal.vStr "Metric evaluation exceeded 30 second timeout"),
      ("evaluation_attempted", PyVal.vBool true),
      ("failure_category", PyVal.vStr "metric_timeout_error"),
      ("timeout_seconds", PyVal.vRat 30)] }

def execution_error_score (config : MetricConfig) (e : String) : MetricScore :=
  { metric_name := config.metric_name, score := some 0,
    reason := "Evaluation failed: " ++ e, passed := false,
    details := [("error_type", PyVal.vStr "Exception"),
      ("error_message", PyVal.vStr e),
      ("evaluation_attempted", PyVal.vBool true),
      ("failure_category", PyVal.vStr "metric_execution_error")] }

def item_failure_score (config : MetricConfig) (e : String) : MetricScore :=
  { metric_name := config.metric_name, score := some 0,
    reason := "Dataset item processing failed: " ++ e, passed := false,
    details := [("error_type", PyVal.vStr "Exception"),
      ("error_message", PyVal.vStr e),
      ("failure_category", PyVal.vStr "dataset_item_processing_error"),
      ("evaluation_attempted", PyVal.vBool false)] }

/-- `_evaluate_item_metrics`: one score per configured metric, in
configuration order; timeouts and captured task exceptions are converted
to failed scores in place. -/
def evaluate_item_metrics (available : List (String × MetricAdapter))
    (item : DatasetItem) (configs : List MetricConfig)
    (outcome : Nat → TaskOutcome) : List MetricScore :=
  configs.enum.map (fun p =>
    match outcome p.1 with
    | TaskOutcome.completed => evaluate_single_metric available item p.2
    | TaskOutcome.timedOut => timeout_score p.2
    | TaskOutcome.raised e => execution_error_score p.2 e)

/-- `_run_evaluations`: one result per dataset item, in dataset order; a
per-item task exception is converted to a full-failure result with one
failed score per configured metric. -/
def run_evaluations (available : List (String × MetricAdapter))
    (itemOutcome : Nat → Option String) (metricOutcome : Nat → Nat → TaskOutcome)
    (items : List DatasetItem) (configs : List MetricConfig) :
    List DatasetItemResult :=
  items.enum.map (fun p =>
    match itemOutcome p.1 with
    | some e =>
      { prompt := p.2.prompt, ground_truth := p.2.ground_truth,
        actual_response := p.2.actual_response, context := p.2.context,
        metric_scores := configs.map (fun c => item_failure_score c e) }
    | none =>
      { prompt := p.2.prompt, ground_truth := p.2.ground_truth,
        actual_response := p.2.actual_response, context := p.2.context,
        metric_scores := evaluate_item_metrics available p.2 configs (metricOutcome p.1) })

/-! ## The seven-step pipeline

From `EvaluationEngine.process_queue_message` (core/evaluation_engine.py,
lines 279-942).  External-call outcomes are modelled as parameters; the
function mirrors the accumulation of `steps_completed`, the soft-success
decision of step 4, the swallowed step-7 failure, the final
critical-step check and the outermost exception handler. -/

/-- Step-4 success counting: a score counts as a successful evaluation
when `score.score is not None and score.score > 0`. -/
def score_succeeded (s : MetricScore) : Bool :=
  match s.score with
  | some q => decide (0 < q)
  | none => false

def count_successful_evaluations (results : List DatasetItemResult) : Nat :=
  (results.map (fun r => (r.metric_scores.filter score_succeeded).length)).sum

/-- Outcomes of the externally visible calls one message processing
makes, plus the fan-out scheduling outcomes. -/
structure PipelineEnv where
  fetch : Except String Unit
  parse : Except String (List DatasetItem × List MetricConfig)
  status_started : Except String Unit
  available : List (String × MetricAdapter)
  item_outcome : Nat → Option String
  metric_outcome : Nat → Nat → TaskOutcome
  summary : Except String Unit
  post_results : Except String Unit
  status_completed : Except String Unit

/-- The body of `process_queue_message` up to its outermost exception
handler: returns the `steps_completed` list and whether an uncaught
exception escaped to the outer handler.  A step's name is appended only
after the step finished without raising; the step-7 status update
swallows its own failure. -/
def run_pipeline (env : PipelineEnv) : List String × Bool :=
  match env.fetch with
  | Except.error _ => ([], true)
  | Except.ok _ =>
  match env.parse with
  | Except.error _ => (["fetch_data"], true)
  | Except.ok (items, configs) =>
  match env.status_started with
  | Except.error _ => (["fetch_data", "parse_data"], true)
  | Except.ok _ =>
    if 0 < count_successful_evaluations
        (run_evaluations env.available env.item_outcome env.metric_outcome
          items configs) then
      match env.summary with
      | Except.error _ =>
        (["fetch_data", "parse_data", "update_status_started",
          "run_evaluations"], true)
      | Except.ok _ =>
      match env.post_results with
      | Except.error _ =>
        (["fetch_data", "parse_data", "update_status_started",
          "run_evaluations", "generate_summary"], true)
      | Except.ok _ =>
      match env.status_completed with
      | Except.error _ =>
        (["fetch_data", "parse_data", "update_status_started",
          "run_evaluations", "generate_summary", "post_results"], false)
      | Except.ok _ =>
        (["fetch_data", "parse_data", "update_status_started",
          "run_evaluations", "generate_summary", "post_results",
          "update_status"], false)
    else
      (["fetch_data", "parse_data", "update_status_started"], true)

def critical_steps : List String :=
  ["fetch_data", "parse_data", "run_evaluations", "generate_summary",
   "post_results"]

/-- `process_queue_message`: the outer handler converts any uncaught
exception to `False`; otherwise the result is the critical-step check. -/
def process_queue_message (env : PipelineEnv) : Bool :=
  if (run_pipeline env).2 then false
  else critical_steps.all (fun s => (run_pipeline env).1.contains s)

/-! ## Concrete instances used by the counterexamples and witnesses -/

def sample_item : DatasetItem :=
  { prompt := "p", ground_truth := "g", actual_response := "a",
    expected_response := none, context := [], metadata := [] }

/-- An adapter whose underlying evaluator returns score 5 with an
explicit pass verdict of `false` in its details. -/
def verdict_adapter : MetricAdapter :=
  { name := "m",
    run := fun _ => Except.ok
      { score := 5, reasoning := "r",
        details := some [("passed", PyVal.vBool false)] } }

def verdict_registry : List (String × MetricAdapter) := [("m", verdict_adapter)]

def verdict_config : MetricConfig :=
  { metric_name := "m", category_name := none, threshold := 3 }

/-- A reachable environment in which every score fails: one dataset
item, one configured metric, an empty registry. -/
def no_success_env : PipelineEnv :=
  { fetch := Except.ok (), parse := Except.ok ([sample_item], [verdict_config]),
    status_started := Except.ok (), available := [],
    item_outcome := fun _ => none,
    metric_outcome := fun _ _ => TaskOutcome.completed,
    summary := Except.ok (), post_results := Except.ok (),
    status_completed := Except.ok () }

/-- A reachable environment whose parsed job has zero dataset items. -/
def empty_job_env : PipelineEnv :=
  { fetch := Except.ok (), parse := Except.ok ([], [verdict_config]),
    status_started := Except.ok (), available := verdict_registry,
    item_outcome := fun _ => none,
    metric_outcome := fun _ _ => TaskOutcome.completed,
    summary := Except.ok (), post_results := Except.ok (),
    status_completed := Except.ok () }

end EvalPlatform

open EvalPlatform

/-! # Claims -/

/-- Claim C1, counterexample: the handler returning the Python integer
`1` — a non-boolean — collapses to `true` and is treated as success
(success-audit write and message delete), contradicting the claim that a
non-boolean return is never treated as success. -/
theorem c1_counterexample :
    (PyVal.vInt 1).isBool = false ∧
    collapse_processing_result (PyVal.vInt 1) = true ∧
    handle_processed_message 3 0 (PyVal.vInt 1) =
      [ConsumerAction.successAudit, ConsumerAction.deleteMessage] := by
  refine ⟨rfl, rfl, rfl⟩

/-- Claim C1, amended: the collapsed processing result is the Python
truthiness of the handler's return value — `None` collapses to `false`
and booleans pass through unchanged, but any other value collapses to
`bool(value)`, so a truthy non-boolean return is treated as success
(success audit and delete) while a falsy one is treated as failure. -/
theorem c1_amended (raw : PyVal) (maxRetries dequeueCount : Nat) :
    collapse_processing_result raw = raw.truthy ∧
    (ConsumerAction.successAudit ∈
        handle_processed_message maxRetries dequeueCount raw ↔
      raw.truthy = true) := by
  have hc : collapse_processing_result raw = raw.truthy := by
    cases raw <;> rfl
  refine ⟨hc, ?_⟩
  unfold handle_processed_message
  rw [hc]
  cases h : raw.truthy with
  | true => simp
  | false =>
    simp only [if_false, Bool.false_eq_true, iff_false]
    split <;> simp

/-- Claim C7: for a message whose collapsed handler result is `false`,
if the dequeue count is below the retry ceiling the consumer performs no
delete and no audit write (the message is left for redelivery); once the
dequeue count reaches the ceiling it performs exactly one failure-audit
write, a best-effort failed-status update, exactly one delete, and no
success-audit write. -/
theorem c7_poison_bound (maxRetries dequeueCount : Nat) (raw : PyVal)
    (hfail : collapse_processing_result raw = false) :
    (dequeueCount < maxRetries →
      handle_processed_message maxRetries dequeueCount raw =
        [ConsumerAction.keepForRetry]) ∧
    (maxRetries ≤ dequeueCount →
      (handle_processed_message maxRetries dequeueCount raw).count
          ConsumerAction.failureAudit = 1 ∧
      (handle_processed_message maxRetries dequeueCount raw).count
          ConsumerAction.deleteMessage = 1 ∧
      ConsumerAction.updateStatusFailed ∈
        handle_processed_message maxRetries dequeueCount raw ∧
      (handle_processed_message maxRetries dequeueCount raw).count
          ConsumerAction.successAudit = 0) := by
  unfold handle_processed_message
  rw [hfail]
  constructor
  · intro hlt
    rw [if_neg (by simp), if_neg (by omega)]
  · intro hle
    rw [if_neg (by simp), if_pos hle]
    refine ⟨rfl, rfl, by simp, rfl⟩

/-- Witness for C7 at a concrete poison message: a handler that returned
`false` with `dequeue_count = 3` and `max_message_retries = 3`. -/
theorem c7_poison_bound_witness :
    (handle_processed_message 3 3 (PyVal.vBool false)).count
        ConsumerAction.failureAudit = 1 ∧
    (handle_processed_message 3 3 (PyVal.vBool false)).count
        ConsumerAction.deleteMessage = 1 := by
  have h := (c7_poison_bound 3 3 (PyVal.vBool false) rfl).2 (by decide)
  exact ⟨h.1, h.2.1⟩

/-- Claim C5: with `max_retries = 3` and `base_delay = 60`, a call that
fails on every attempt makes exactly four attempts, sleeping 60, then
120, then 240 seconds between consecutive attempts, and the final
outcome is the exception of the fourth attempt. -/
theorem c5_backoff_schedule (f : Nat → Except String Unit) (es : Nat → String)
    (hfail : ∀ n, n ≤ 3 → f n = Except.error (es n)) :
    fetch_with_retry f 3 60 = ([60, 120, 240], Except.error (es 3), 4) := by
  unfold fetch_with_retry
  unfold fetch_with_retry_aux
  rw [hfail 0 (by omega)]
  unfold fetch_with_retry_aux
  rw [hfail 1 (by omega)]
  unfold fetch_with_retry_aux
  rw [hfail 2 (by omega)]
  unfold fetch_with_retry_aux
  rw [hfail 3 (by omega)]
  rfl

/-- Witness for C5 at a concrete always-failing call. -/
theorem c5_backoff_schedule_witness :
    fetch_with_retry (fun _ => (Except.error "boom" : Except String Unit)) 3 60 =
      ([60, 120, 240], Except.error "boom", 4) :=
  c5_backoff_schedule (fun _ => Except.error "boom") (fun _ => "boom")
    (fun _ _ => rfl)

/-- Claim C8: whenever the supplied name is a key of the primary alias
table, resolution returns the primary table's mapped value, regardless
of the candidate-metric set, of whether fuzzy matching is enabled, and
of the similarity function. -/
theorem c8_exact_alias_precedence (sim : String → String → ℚ)
    (cfg : ResolverConfig) (apiName resolved : String)
    (availableMetrics : Option (List String))
    (h : cfg.mappings.lookup apiName = some resolved) :
    resolve_metric_name sim cfg apiName availableMetrics = resolved := by
  unfold resolve_metric_name
  rw [h]

/-- Witness for C8: resolving `"F1 Score"` with alias entry
`{"F1 Score": "f1_score"}` returns `"f1_score"` even though fuzzy
matching is enabled and the fuzzy candidate `"f1score_v2"` scores 1
(above the 0.8 threshold) under the supplied similarity function. -/
theorem c8_exact_alias_precedence_witness :
    resolve_metric_name (fun _ _ => 1)
      { mappings := [("F1 Score", "f1_score")], alternative_mappings := [],
        fuzzy_enabled := true, similarity_threshold := 8 / 10,
        transformations := ["lowercase", "snake_case"] }
      "F1 Score" (some ["f1score_v2"]) = "f1_score" :=
  c8_exact_alias_precedence (fun _ _ => 1) _ "F1 Score" "f1_score"
    (some ["f1score_v2"]) rfl

/-- Claim C9: when the supplied name matches neither mapping table,
fuzzy matching is disabled, and a non-empty candidate set is supplied
that does not contain the basic normalization of the name, resolution
returns the original name unchanged. -/
theorem c9_unresolved_name_visibility (sim : String → String → ℚ)
    (cfg : ResolverConfig) (apiName : String) (metrics : List String)
    (h1 : cfg.mappings.lookup apiName = none)
    (h2 : cfg.alternative_mappings.lookup apiName = none)
    (h3 : cfg.fuzzy_enabled = false)
    (h4 : metrics.isEmpty = false)
    (h5 : metrics.contains (apply_basic_normalization cfg apiName) = false) :
    resolve_metric_name sim cfg apiName (some metrics) = apiName := by
  unfold resolve_metric_name
  rw [h1, h2]
  simp [h3, h4, h5]
  intro hmem
  exact absurd hmem (by simpa using h5)

/-- Claim C2, counterexample: an evaluator that supplies an explicit
pass verdict of `false` (score 5, threshold 3).  The adapter-level
result trusts the verdict (`passed = false`), but the MetricScore the
engine produces has `passed = true`: the engine recomputes
`score >= threshold` unconditionally, overriding the evaluator's own
verdict. -/
theorem c2_counterexample :
    (verdict_adapter.evaluate sample_item).passed = false ∧
    (evaluate_single_metric verdict_registry sample_item verdict_config).score =
      some 5 ∧
    verdict_config.threshold = 3 ∧
    (evaluate_single_metric verdict_registry sample_item verdict_config).passed =
      true := by
  refine ⟨by decide, by decide, rfl, by decide⟩

/-- Claim C2, amended: whenever the configured metric resolves to a
registry adapter and the adapter call yields a score, the `passed` field
of the produced MetricScore equals `score >= threshold` — the
evaluator's own pass/fail verdict, even when supplied, is overridden by
the threshold comparison. -/
theorem c2_amended (available : List (String × MetricAdapter))
    (item : DatasetItem) (config : MetricConfig) (a : MetricAdapter) (q : ℚ)
    (hlookup : available.lookup
        (normalize_metric_name config.metric_name (available.map Prod.fst)) =
      some a)
    (hscore : (a.evaluate item).score = some q) :
    (evaluate_single_metric available item config).passed =
      decide (config.threshold ≤ q) := by
  unfold evaluate_single_metric
  simp only [hlookup, hscore]

/-- Witness for C2 (amended) at the concrete adapter of the
counterexample: score 5 against threshold 3. -/
theorem c2_amended_witness :
    (evaluate_single_metric verdict_registry sample_item verdict_config).passed =
      decide (verdict_config.threshold ≤ (5 : ℚ)) :=
  c2_amended verdict_registry sample_item verdict_config verdict_adapter 5
    rfl rfl

/-- Helper: the fan-out preserves the dataset length and pads every
result to one score per configured metric. -/
theorem run_evaluations_shape (available : List (String × MetricAdapter))
    (itemOutcome : Nat → Option String) (metricOutcome : Nat → Nat → TaskOutcome)
    (items : List DatasetItem) (configs : List MetricConfig) :
    (run_evaluations available itemOutcome metricOutcome items configs).length =
      items.length ∧
    ∀ r ∈ run_evaluations available itemOutcome metricOutcome items configs,
      r.metric_scores.length = configs.length := by
  constructor
  · simp [run_evaluations]
  · intro r hr
    simp only [run_evaluations, List.mem_map] at hr
    obtain ⟨p, hp, rfl⟩ := hr
    cases h : itemOutcome p.1 <;>
      simp [h, evaluate_item_metrics]

/-- Claim C3: for any dataset of N items and any M metric
configurations, the fan-out returns exactly N results, each with exactly
M metric scores, whatever the per-item and per-metric task outcomes
(exceptions and timeouts included). -/
theorem c3_result_shape (available : List (String × MetricAdapter))
    (itemOutcome : Nat → Option String) (metricOutcome : Nat → Nat → TaskOutcome)
    (items : List DatasetItem) (configs : List MetricConfig) :
    (run_evaluations available itemOutcome metricOutcome items configs).length =
      items.length ∧
    ∀ r ∈ run_evaluations available itemOutcome metricOutcome items configs,
      r.metric_scores.length = configs.length :=
  run_evaluations_shape available itemOutcome metricOutcome items configs

/-! Equation lemmas for `run_pipeline`, one per exit point. -/

theorem run_pipeline_fetch_error (env : PipelineEnv) (e : String)
    (h1 : env.fetch = Except.error e) :
    run_pipeline env = ([], true) := by
  unfold run_pipeline
  rw [h1]

theorem run_pipeline_parse_error (env : PipelineEnv) (e : String)
    (h1 : env.fetch = Except.ok ()) (h2 : env.parse = Except.error e) :
    run_pipeline env = (["fetch_data"], true) := by
  unfold run_pipeline
  rw [h1, h2]

theorem run_pipeline_status_error (env : PipelineEnv)
    (items : List DatasetItem) (configs : List MetricConfig) (e : String)
    (h1 : env.fetch = Except.ok ()) (h2 : env.parse = Except.ok (items, configs))
    (h3 : env.status_started = Except.error e) :
    run_pipeline env = (["fetch_data", "parse_data"], true) := by
  unfold run_pipeline
  rw [h1, h2, h3]

theorem run_pipeline_no_success (env : PipelineEnv)
    (items : List DatasetItem) (configs : List MetricConfig)
    (h1 : env.fetch = Except.ok ()) (h2 : env.parse = Except.ok (items, configs))
    (h3 : env.status_started = Except.ok ())
    (hc : count_successful_evaluations
        (run_evaluations env.available env.item_outcome env.metric_outcome
          items configs) = 0) :
    run_pipeline env =
      (["fetch_data", "parse_data", "update_status_started"], true) := by
  unfold run_pipeline
  simp only [h1, h2, h3]
  rw [if_neg (by omega)]

theorem run_pipeline_summary_error (env : PipelineEnv)
    (items : List DatasetItem) (configs : List MetricConfig) (e : String)
    (h1 : env.fetch = Except.ok ()) (h2 : env.parse = Except.ok (items, configs))
    (h3 : env.status_started = Except.ok ())
    (hc : 0 < count_successful_evaluations
        (run_evaluations env.available env.item_outcome env.metric_outcome
          items configs))
    (h4 : env.summary = Except.error e) :
    run_pipeline env =
      (["fetch_data", "parse_data", "update_status_started",
        "run_evaluations"], true) := by
  unfold run_pipeline
  simp only [h1, h2, h3]
  rw [if_pos hc]
  simp only [h4]

theorem run_pipeline_post_error (env : PipelineEnv)
    (items : List DatasetItem) (configs : List MetricConfig) (e : String)
    (h1 : env.fetch = Except.ok ()) (h2 : env.parse = Except.ok (items, configs))
    (h3 : env.status_started = Except.ok ())
    (hc : 0 < count_successful_evaluations
        (run_evaluations env.available env.item_outcome env.metric_outcome
          items configs))
    (h4 : env.summary = Except.ok ()) (h5 : env.post_results = Except.error e) :
    run_pipeline env =
      (["fetch_data", "parse_data", "update_status_started",
        "run_evaluations", "generate_summary"], true) := by
  unfold run_pipeline
  simp only [h1, h2, h3]
  rw [if_pos hc]
  simp only [h4, h5]

theorem run_pipeline_status_completed_error (env : PipelineEnv)
    (items : List DatasetItem) (configs : List MetricConfig) (e : String)
    (h1 : env.fetch = Except.ok ()) (h2 : env.parse = Except.ok (items, configs))
    (h3 : env.status_started = Except.ok ())
    (hc : 0 < count_successful_evaluations
        (run_evaluations env.available env.item_outcome env.metric_outcome
          items configs))
    (h4 : env.summary = Except.ok ()) (h5 : env.post_results = Except.ok ())
    (h6 : env.status_completed = Except.error e) :
    run_pipeline env =
      (["fetch_data", "parse_data", "update_status_started",
        "run_evaluations", "generate_summary", "post_results"], false) := by
  unfold run_pipeline
  simp only [h1, h2, h3]
  rw [if_pos hc]
  simp only [h4, h5, h6]

theorem run_pipeline_all_ok (env : PipelineEnv)
    (items : List DatasetItem) (configs : List MetricConfig)
    (h1 : env.fetch = Except.ok ()) (h2 : env.parse = Except.ok (items, configs))
    (h3 : env.status_started = Except.ok ())
    (hc : 0 < count_successful_evaluations
        (run_evaluations env.available env.item_outcome env.metric_outcome
          items configs))
    (h4 : env.summary = Except.ok ()) (h5 : env.post_results = Except.ok ())
    (h6 : env.status_completed = Except.ok ()) :
    run_pipeline env =
      (["fetch_data", "parse_data", "update_status_started",
        "run_evaluations", "generate_summary", "post_results",
        "update_status"], false) := by
  unfold run_pipeline
  simp only [h1, h2, h3]
  rw [if_pos hc]
  simp only [h4, h5, h6]

/-- Every exit of `run_pipeline` that reports an uncaught exception
happens before `post_results` is appended to the completed steps. -/
theorem post_results_missing_of_raised (env : PipelineEnv)
    (h : (run_pipeline env).2 = true) :
    "post_results" ∉ (run_pipeline env).1 := by
  rcases hf : env.fetch with ef | ⟨⟩
  · rw [run_pipeline_fetch_error env ef hf]; decide
  rcases hp : env.parse with ep | ⟨items, configs⟩
  · rw [run_pipeline_parse_error env ep hf hp]; decide
  rcases hs : env.status_started with es | ⟨⟩
  · rw [run_pipeline_status_error env items configs es hf hp hs]; decide
  by_cases hc : 0 < count_successful_evaluations
      (run_evaluations env.available env.item_outcome env.metric_outcome
        items configs)
  · rcases hsu : env.summary with esu | ⟨⟩
    · rw [run_pipeline_summary_error env items configs esu hf hp hs hc hsu]
      decide
    rcases hpr : env.post_results with epr | ⟨⟩
    · rw [run_pipeline_post_error env items configs epr hf hp hs hc hsu hpr]
      decide
    rcases hsc : env.status_completed with esc | ⟨⟩
    · rw [run_pipeline_status_completed_error env items configs esc hf hp hs hc
        hsu hpr hsc] at h
      simp at h
    · rw [run_pipeline_all_ok env items configs hf hp hs hc hsu hpr hsc] at h
      simp at h
  · have hzero : count_successful_evaluations
        (run_evaluations env.available env.item_outcome env.metric_outcome
          items configs) = 0 := by omega
    rw [run_pipeline_no_success env items configs hf hp hs hzero]; decide

/-- Claim C6: processing a queue message returns `true` exactly when the
five critical steps fetch_data, parse_data, run_evaluations,
generate_summary and post_results were all recorded as completed (the
two status-update steps are not consulted), and any uncaught exception
inside processing yields `false` instead of propagating. -/
theorem c6_final_decision (env : PipelineEnv) :
    (process_queue_message env = true ↔
      ∀ s ∈ critical_steps, s ∈ (run_pipeline env).1) ∧
    ((run_pipeline env).2 = true → process_queue_message env = false) := by
  constructor
  · cases hraised : (run_pipeline env).2 with
    | true =>
      have hmiss := post_results_missing_of_raised env hraised
      simp only [process_queue_message, hraised, if_true]
      constructor
      · intro hfalse; exact absurd hfalse (by simp)
      · intro hall
        exact absurd (hall "post_results" (by decide)) hmiss
    | false =>
      simp [process_queue_message, hraised, List.all_eq_true]
  · intro hraised
    simp [process_queue_message, hraised]

/-- Helper: the soft-success behaviour of step 4, shared by the C4 and
C10 claims. -/
theorem soft_success_helper (env : PipelineEnv) (items : List DatasetItem)
    (configs : List MetricConfig)
    (hf : env.fetch = Except.ok ())
    (hp : env.parse = Except.ok (items, configs))
    (hs : env.status_started = Except.ok ()) :
    (0 < count_successful_evaluations
        (run_evaluations env.available env.item_outcome env.metric_outcome
          items configs) →
      "run_evaluations" ∈ (run_pipeline env).1) ∧
    (count_successful_evaluations
        (run_evaluations env.available env.item_outcome env.metric_outcome
          items configs) = 0 →
      "run_evaluations" ∉ (run_pipeline env).1 ∧
      (run_pipeline env).2 = true ∧
      process_queue_message env = false) := by
  constructor
  · intro hpos
    rcases hsu : env.summary with esu | ⟨⟩
    · rw [run_pipeline_summary_error env items configs esu hf hp hs hpos hsu]
      decide
    rcases hpr : env.post_results with epr | ⟨⟩
    · rw [run_pipeline_post_error env items configs epr hf hp hs hpos hsu hpr]
      decide
    rcases hsc : env.status_completed with esc | ⟨⟩
    · rw [run_pipeline_status_completed_error env items configs esc hf hp hs
        hpos hsu hpr hsc]
      decide
    · rw [run_pipeline_all_ok env items configs hf hp hs hpos hsu hpr hsc]
      decide
  · intro hzero
    have hrp := run_pipeline_no_success env items configs hf hp hs hzero
    refine ⟨?_, ?_, ?_⟩
    · rw [hrp]; decide
    · rw [hrp]
    · simp [process_queue_message, hrp]

/-- Claim C4: once the first three steps have succeeded and the fan-out
has completed, step 4 is recorded as completed precisely when at least
one of the N×M scores is positive; when no score is positive the step is
not recorded, the step raises, and the message-processing result is
`false`. -/
theorem c4_soft_success (env : PipelineEnv) (items : List DatasetItem)
    (configs : List MetricConfig)
    (hf : env.fetch = Except.ok ())
    (hp : env.parse = Except.ok (items, configs))
    (hs : env.status_started = Except.ok ()) :
    (0 < count_successful_evaluations
        (run_evaluations env.available env.item_outcome env.metric_outcome
          items configs) →
      "run_evaluations" ∈ (run_pipeline env).1) ∧
    (count_successful_evaluations
        (run_evaluations env.available env.item_outcome env.metric_outcome
          items configs) = 0 →
      "run_evaluations" ∉ (run_pipeline env).1 ∧
      (run_pipeline env).2 = true ∧
      process_queue_message env = false) :=
  soft_success_helper env items configs hf hp hs

/-- Witness for C4 at a concrete reachable environment: one dataset
item, one configured metric that is absent from an empty registry, so
every score is a zero-score failure; step 4 is not recorded, raises, and
the job result is `false`. -/
theorem c4_soft_success_witness :
    process_queue_message no_success_env = false :=
  ((c4_soft_success no_success_env [sample_item] [verdict_config] rfl rfl rfl).2
    (by decide)).2.2

/-- The fan-out over an empty dataset or an empty metric configuration
yields zero successful evaluations. -/
theorem count_successful_empty (available : List (String × MetricAdapter))
    (itemOutcome : Nat → Option String) (metricOutcome : Nat → Nat → TaskOutcome)
    (items : List DatasetItem) (configs : List MetricConfig)
    (hempty : items = [] ∨ configs = []) :
    count_successful_evaluations
      (run_evaluations available itemOutcome metricOutcome items configs) = 0 := by
  rcases hempty with rfl | rfl
  · rfl
  · unfold count_successful_evaluations
    apply List.sum_eq_zero
    intro n hn
    simp only [List.mem_map] at hn
    obtain ⟨r, hr, rfl⟩ := hn
    have hshape :=
      (run_evaluations_shape available itemOutcome metricOutcome items []).2 r hr
    simp only [List.length_nil] at hshape
    rw [List.eq_nil_of_length_eq_zero hshape]
    rfl

/-- Claim C10: when fetch and parse succeed but the parsed job has zero
dataset items or zero metric configurations, there are zero scores, so
no score is positive, an exception escapes to the outer handler, and
processing returns `false` — an empty-but-valid job is never reported as
a success. -/
theorem c10_empty_job_fails (env : PipelineEnv) (items : List DatasetItem)
    (configs : List MetricConfig)
    (hf : env.fetch = Except.ok ())
    (hp : env.parse = Except.ok (items, configs))
    (hempty : items = [] ∨ configs = []) :
    (run_pipeline env).2 = true ∧ process_queue_message env = false := by
  have hcount := count_successful_empty env.available env.item_outcome
    env.metric_outcome items configs hempty
  rcases hs : env.status_started with es | ⟨⟩
  · have hrp := run_pipeline_status_error env items configs es hf hp hs
    refine ⟨by rw [hrp], by simp [process_queue_message, hrp]⟩
  · have h := (soft_success_helper env items configs hf hp hs).2 hcount
    exact ⟨h.2.1, h.2.2⟩

/-- Witness for C10 at a concrete empty job: parse succeeds with zero
dataset items and one configured metric. -/
theorem c10_empty_job_fails_witness :
    process_queue_message empty_job_env = false :=
  (c10_empty_job_fails empty_job_env [] [verdict_config] rfl rfl (Or.inl rfl)).2

/-- Witness for C9: `"TotallyUnknownMetric"` against the candidate set
`{"relevance", "coherence"}` with fuzzy matching disabled resolves to
`"TotallyUnknownMetric"` itself. -/
theorem c9_unresolved_name_visibility_witness :
    resolve_metric_name (fun _ _ => 1)
      { mappings := [], alternative_mappings := [],
        fuzzy_enabled := false, similarity_threshold := 8 / 10,
        transformations := ["lowercase", "snake_case"] }
      "TotallyUnknownMetric" (some ["relevance", "coherence"]) =
      "TotallyUnknownMetric" :=
  c9_unresolved_name_visibility (fun _ _ => 1) _ "TotallyUnknownMetric"
    ["relevance", "coherence"] rfl rfl rfl rfl (by decide)
